import Mathlib

set_option autoImplicit false

/-!
Shallow embedding of the PyPRT generation orchestration layer
(src/src/client/wrap.cpp).

The Engine (the external PRT runtime) is opaque to this layer; its behaviour
during one generate call is modelled by an oracle record `EngineEnv`
(resolve-map resolution outcome, generation status, callback-collector
contents, directory existence).  Machine doubles never take part in any
arithmetic in this layer (vertex coordinates are stored and passed through
unchanged), so coordinate values are modelled by the opaque decidable type
`Int`.  Fallible steps that the C++ performs as undefined behaviour
(out-of-bounds `std::vector` indexing) are modelled by a dedicated `crash`
outcome, and errors that the C++ logs before `return {}` are modelled by an
`err` outcome carrying which check fired.
-/

namespace PyPrt

/-- Opaque handle identity for `prt::ResolveMap` objects. -/
abbrev ResolveMap := Nat

/-- Engine status: the wrapper only ever tests a status against
`prt::STATUS_OK`, so statuses collapse to ok / failure. -/
inductive PrtStatus
  | ok
  | failure
  deriving DecidableEq

/-- A typed value inside a `py::dict` (`PT_STRING` / `PT_INT` / `PT_FLOAT` /
`PT_BOOL`).  The float payload is opaque to every claim and is carried as an
`Int` token. -/
inductive PyValue
  | str (s : String)
  | int (i : Int)
  | float (q : Int)
  | bool (b : Bool)
  deriving DecidableEq

/-- A `py::dict` as an association list (insertion order preserved). -/
abbrev PyDict := List (String × PyValue)

/-- Models `dict.hasKey k && dict.getType k == PT_STRING` followed by `getString`:
`some` exactly when the key is present with a string value. -/
def PyDict.getStr (d : PyDict) (k : String) : Option String :=
  match List.lookup k d with
  | some (PyValue.str s) => some s
  | _ => none

/-- Models `dict.hasKey k && dict.getType k == PT_INT` followed by `getInt`. -/
def PyDict.getInt (d : PyDict) (k : String) : Option Int :=
  match List.lookup k d with
  | some (PyValue.int i) => some i
  | _ => none

/-- Source `const std::wstring ENCODER_ID_PYTHON = L"com.esri.pyprt.PyEncoder";` -/
def ENCODER_ID_PYTHON : String := "com.esri.pyprt.PyEncoder"

/-- Source `const std::wstring ENCODER_ID_CGA_REPORT = L"com.esri.prt.core.CGAReportEncoder";` -/
def ENCODER_ID_CGA_REPORT : String := "com.esri.prt.core.CGAReportEncoder"

/-- Source `const std::wstring ENCODER_ID_CGA_PRINT = L"com.esri.prt.core.CGAPrintEncoder";` -/
def ENCODER_ID_CGA_PRINT : String := "com.esri.prt.core.CGAPrintEncoder"

/-- Models `std::iota(std::begin(mIndices), std::end(mIndices), value)` over a buffer
of the given length: consecutive values starting at `start`. -/
def iotaFrom : Nat → Nat → List Nat
  | 0, _ => []
  | n + 1, start => start :: iotaFrom n (start + 1)

/-- The `InitialShape` value class of wrap.cpp: inline geometry
(vertices / face-vertex indices / per-face vertex counts) or a file path,
discriminated by `mPathFlag`. -/
structure InitialShape where
  vertices : List Int
  indices : List Nat
  faceCounts : List Nat
  path : String
  pathFlag : Bool
  deriving DecidableEq

/-- Constructor `InitialShape::InitialShape(const std::vector<double>& vert)`:
`mIndices.resize(vert.size() / 3); std::iota(..., 0);
mFaceCounts.resize(1, (uint32_t)mIndices.size());` -/
def InitialShape.fromVertices (vert : List Int) : InitialShape :=
  let ind := iotaFrom (vert.length / 3) 0
  { vertices := vert
    indices := ind
    faceCounts := [ind.length]
    path := ""
    pathFlag := false }

/-- Constructor `InitialShape::InitialShape(vert, ind, faceCnt)`. -/
def InitialShape.fromGeometry (vert : List Int) (ind : List Nat) (faceCnt : List Nat) : InitialShape :=
  { vertices := vert, indices := ind, faceCounts := faceCnt, path := "", pathFlag := false }

/-- Constructor `InitialShape::InitialShape(const std::string& initShapePath)`. -/
def InitialShape.fromPath (p : String) : InitialShape :=
  { vertices := [], indices := [], faceCounts := [], path := p, pathFlag := true }

/-- A CGA report value streamed through the callback sink (float / string /
bool typed entries; the float payload is opaque here). -/
inductive ReportValue
  | num (v : Int)
  | txt (v : String)
  | flag (v : Bool)
  deriving DecidableEq

/-- Accumulated report for one initial-shape index. -/
abbrev Report := List (String × ReportValue)

/-- What the `PyCallbacks` collector holds for one initial-shape index when
`prt::generate` returns (`getVertices` / `getIndices` / `getFaces` /
`getReport`). -/
structure CollectedEntry where
  vertices : List Int
  indices : List Nat
  faces : List Nat
  report : Report
  deriving DecidableEq

/-- The `GeneratedModel` result value class. -/
structure GeneratedModel where
  initialShapeIndex : Nat
  vertices : List Int
  indices : List Nat
  faces : List Nat
  report : Report
  deriving DecidableEq

/-- The four recognized shape attributes that
`extractMainShapeAttributes` feeds into
`InitialShapeBuilder::setAttributes`. -/
structure MainAttrs where
  ruleFile : String
  startRule : String
  seed : Int
  shapeName : String
  deriving DecidableEq

/-- A validated encoder option set:
`createValidatedOptions(encName, options)` keyed by its encoder. -/
structure ValidatedOpts where
  enc : String
  opts : PyDict
  deriving DecidableEq

/-- Mutable state of a `ModelGenerator` instance: validity flag, number of
initial-shape builders, the resolve map, the encoder set, and the four
attribute defaults declared inline in the class
(`mRuleFile = L"bin/rule.cgb"` etc.). -/
structure ModelGenerator where
  valid : Bool
  numShapes : Nat
  resolveMap : Option ResolveMap
  encodersNames : List String
  encodersOptions : List ValidatedOpts
  ruleFile : String
  startRule : String
  seed : Int
  shapeName : String
  deriving DecidableEq

/-- Environment for the constructor: `pcu::toFileURI` (a pure path helper
living in utils.cpp) and the Engine statuses of
`InitialShapeBuilder::resolveGeometry` / `setGeometry`. -/
structure ConstructEnv where
  toFileURI : String → String
  resolveGeometryOk : String → Bool
  setGeometryOk : List Int → List Nat → List Nat → Bool

/-- One iteration of the constructor loop: `true` when this shape sets
`mValid = false` (empty file URI, failed `resolveGeometry`, or rejected
inline buffers). -/
def initialShapeFails (cenv : ConstructEnv) (s : InitialShape) : Bool :=
  if s.pathFlag then
    if cenv.toFileURI s.path ≠ "" then
      !cenv.resolveGeometryOk (cenv.toFileURI s.path)
    else
      true
  else
    !cenv.setGeometryOk s.vertices s.indices s.faceCounts

/-- Constructor `ModelGenerator::ModelGenerator(const std::vector<InitialShape>&)`:
sizes the builder vector, creates the shared cache, and runs the per-shape
loop that can only clear `mValid`; the remaining members keep their inline
initializers. -/
def mkModelGenerator (cenv : ConstructEnv) (shapes : List InitialShape) : ModelGenerator :=
  { valid := !(shapes.any (initialShapeFails cenv))
    numShapes := shapes.length
    resolveMap := none
    encodersNames := []
    encodersOptions := []
    ruleFile := "bin/rule.cgb"
    startRule := "default$init"
    seed := 666
    shapeName := "InitialShape" }

/-- Outcome of `prt::createResolveMap` as observed by the wrapper: a native
exception (caught and printed), or a returned map pointer together with
whether the out-status was `STATUS_OK`. -/
inductive ResolveOutcome
  | throws
  | returns (rm : Option ResolveMap) (statusOk : Bool)

/-- Per-call oracle for everything the Engine and the filesystem decide
during one `generateModel` call. -/
structure EngineEnv where
  prtInitialized : Bool
  resolveOutcome : String → ResolveOutcome
  genStatus : PrtStatus
  collected : Nat → CollectedEntry
  isExistingDirectory : String → Bool

/-- Which `LOG_ERR` + `return {}` path a failing call took. -/
inductive GenError
  | invalidInstance
  | notEnoughAttrs
  | prtNotInitialized
  | resolveMapFailed
  | badOutputPath
  | generateFailed
  | caughtException
  | missingResolveMap
  deriving DecidableEq

/-- Result channel of a call: a returned model vector, a logged error with an
empty returned vector, or undefined behaviour (out-of-bounds vector read). -/
inductive GenOutcome
  | ok (models : List GeneratedModel)
  | err (e : GenError)
  | crash
  deriving DecidableEq

/-- The callback sink handed to `prt::generate`: a fresh
`PyCallbacks(numShapes)` collector or `prt::FileOutputCallbacks` on a
directory. -/
inductive CallbackSink
  | python (numShapes : Nat)
  | fileOutput (dir : String)
  deriving DecidableEq

/-- Record of the one `prt::generate` invocation of a call (absent when the
call never reached the Engine). -/
structure EngineInvocation where
  shapeAttrs : List MainAttrs
  resolveMap : Option ResolveMap
  encoders : List String
  sink : CallbackSink
  deriving DecidableEq

/-- Full observable result of one `generateModel` call: outcome, post-call
orchestrator state, and the Engine invocation if one happened. -/
structure GenResult where
  outcome : GenOutcome
  state : ModelGenerator
  invocation : Option EngineInvocation
  deriving DecidableEq

/-- Models `extractMainShapeAttributes`: each recognized key present with the right
type overrides the incoming default. -/
def extractMainShapeAttributes (shapeAttr : PyDict) (ruleFile startRule : String)
    (seed : Int) (shapeName : String) : MainAttrs :=
  { ruleFile := (PyDict.getStr shapeAttr "ruleFile").getD ruleFile
    startRule := (PyDict.getStr shapeAttr "startRule").getD startRule
    seed := (PyDict.getInt shapeAttr "seed").getD seed
    shapeName := (PyDict.getStr shapeAttr "shapeName").getD shapeName }

/-- Models `py::dict shapeAttr = shapesAttr[0]; if (shapesAttr.size() > ind)
shapeAttr = shapesAttr[ind];` (the `[0]` fallback is only reachable with a
non-empty list thanks to the attribute-count guard). -/
def shapeAttrFor (shapesAttr : List PyDict) (ind : Nat) : PyDict :=
  if ind < shapesAttr.length then shapesAttr.getD ind [] else shapesAttr.getD 0 []

/-- Models `ModelGenerator::setAndCreateInitialShape`: the per-shape main attributes
actually passed to `InitialShapeBuilder::setAttributes`.  The C++ loop reads
the member defaults into locals (`ruleF = mRuleFile; ...`) and never writes
the locals back, so the state is untouched and only this list is produced. -/
def setAndCreateInitialShape (g : ModelGenerator) (shapesAttr : List PyDict) : List MainAttrs :=
  (List.range g.numShapes).map fun ind =>
    extractMainShapeAttributes (shapeAttrFor shapesAttr ind) g.ruleFile g.startRule g.seed g.shapeName

/-- Options of the fixed auxiliary CGA-report encoder
(`optionsBuilder->setString(L"name", FILE_CGA_REPORT)`). -/
def cgaReportOptions : PyDict := [("name", PyValue.str "CGAReport.txt")]

/-- Models `ModelGenerator::initializeEncoderData`: clears and rebuilds the encoder
name/option vectors; a non-Python encoder is augmented with the fixed
CGA-report and CGA-print auxiliary encoders. -/
def initializeEncoderData (g : ModelGenerator) (encName : String) (encOpt : PyDict) : ModelGenerator :=
  if encName = ENCODER_ID_PYTHON then
    { g with
      encodersNames := [encName]
      encodersOptions := [⟨encName, encOpt⟩] }
  else
    { g with
      encodersNames := [encName, ENCODER_ID_CGA_REPORT, ENCODER_ID_CGA_PRINT]
      encodersOptions := [⟨encName, encOpt⟩, ⟨ENCODER_ID_CGA_REPORT, cgaReportOptions⟩,
                          ⟨ENCODER_ID_CGA_PRINT, []⟩] }

/-- Models `ModelGenerator::getRawEncoderDataPointers`: reads `mEncodersNames[0]`
(and, in the non-Python branch, `[1]`, `[2]` plus three option slots) with
unchecked `std::vector::operator[]`; `none` models the out-of-bounds read
(undefined behaviour). -/
def getRawEncoderDataPointers (g : ModelGenerator) :
    Option (List String × List ValidatedOpts) :=
  match g.encodersNames, g.encodersOptions with
  | [], _ => none
  | e0 :: rest, opts =>
    if e0 = ENCODER_ID_PYTHON then
      match opts with
      | [] => none
      | o0 :: _ => some ([e0], [o0])
    else
      match rest, opts with
      | e1 :: e2 :: _, o0 :: o1 :: o2 :: _ => some ([e0, e1, e2], [o0, o1, o2])
      | _, _ => none

/-- Encoder state after the conditional
`if (!geometryEncoderName.empty()) initializeEncoderData(...)`. -/
def encoderStateAfter (g : ModelGenerator) (geometryEncoderName : String)
    (geometryEncoderOptions : PyDict) : ModelGenerator :=
  if geometryEncoderName ≠ "" then
    initializeEncoderData g geometryEncoderName geometryEncoderOptions
  else g

/-- The models drained from the `PyCallbacks` collector on a successful
Python-encoder generation: one `GeneratedModel` per builder index. -/
def drainCollector (env : EngineEnv) (numShapes : Nat) : List GeneratedModel :=
  (List.range numShapes).map fun idx =>
    GeneratedModel.mk idx (env.collected idx).vertices (env.collected idx).indices
      (env.collected idx).faces (env.collected idx).report

/-- The tail of `ModelGenerator::generateModel` after the resolve-map block:
initial-shape creation, encoder selection, and the encoder-specific
generate-and-collect paths. -/
def generateAfterResolve (env : EngineEnv) (g : ModelGenerator) (shapeAttributes : List PyDict)
    (geometryEncoderName : String) (geometryEncoderOptions : PyDict) : GenResult :=
  match getRawEncoderDataPointers (encoderStateAfter g geometryEncoderName geometryEncoderOptions) with
  | none => ⟨GenOutcome.crash, encoderStateAfter g geometryEncoderName geometryEncoderOptions, none⟩
  | some (encoders, _) =>
    if (encoderStateAfter g geometryEncoderName geometryEncoderOptions).encodersNames.headD ""
        = ENCODER_ID_PYTHON then
      -- `PyCallbacks(mInitialShapesBuilders.size())` + `prt::generate`
      match env.genStatus with
      | PrtStatus.failure =>
        ⟨GenOutcome.err GenError.generateFailed,
         encoderStateAfter g geometryEncoderName geometryEncoderOptions,
         some ⟨setAndCreateInitialShape g shapeAttributes,
               (encoderStateAfter g geometryEncoderName geometryEncoderOptions).resolveMap,
               encoders, CallbackSink.python g.numShapes⟩⟩
      | PrtStatus.ok =>
        ⟨GenOutcome.ok (drainCollector env g.numShapes),
         encoderStateAfter g geometryEncoderName geometryEncoderOptions,
         some ⟨setAndCreateInitialShape g shapeAttributes,
               (encoderStateAfter g geometryEncoderName geometryEncoderOptions).resolveMap,
               encoders, CallbackSink.python g.numShapes⟩⟩
    else
      -- file-based encoder: `geometryEncoderOptions["outputPath"].cast<std::string>()`;
      -- a missing key or non-string value throws and is caught by
      -- `catch (const std::exception&)`.
      match PyDict.getStr geometryEncoderOptions "outputPath" with
      | none =>
        ⟨GenOutcome.err GenError.caughtException,
         encoderStateAfter g geometryEncoderName geometryEncoderOptions, none⟩
      | some p =>
        if env.isExistingDirectory p then
          match env.genStatus with
          | PrtStatus.failure =>
            ⟨GenOutcome.err GenError.generateFailed,
             encoderStateAfter g geometryEncoderName geometryEncoderOptions,
             some ⟨setAndCreateInitialShape g shapeAttributes,
                   (encoderStateAfter g geometryEncoderName geometryEncoderOptions).resolveMap,
                   encoders, CallbackSink.fileOutput p⟩⟩
          | PrtStatus.ok =>
            ⟨GenOutcome.ok [],
             encoderStateAfter g geometryEncoderName geometryEncoderOptions,
             some ⟨setAndCreateInitialShape g shapeAttributes,
                   (encoderStateAfter g geometryEncoderName geometryEncoderOptions).resolveMap,
                   encoders, CallbackSink.fileOutput p⟩⟩
        else
          ⟨GenOutcome.err GenError.badOutputPath,
           encoderStateAfter g geometryEncoderName geometryEncoderOptions, none⟩

/-- Models `ModelGenerator::generateModel`: validity check, attribute-count check
(the surplus-attributes case only logs a warning), PRT-context check,
resolve-map block (`mResolveMap.reset(...)` runs before the status check, so
a returned failure overwrites the stored map while a thrown exception leaves
it untouched), then `generateAfterResolve`. -/
def generateModel (env : EngineEnv) (g : ModelGenerator) (shapeAttributes : List PyDict)
    (rulePackagePath : String) (geometryEncoderName : String)
    (geometryEncoderOptions : PyDict) : GenResult :=
  if g.valid = false then
    ⟨GenOutcome.err GenError.invalidInstance, g, none⟩
  else if shapeAttributes.length ≠ 1 ∧ shapeAttributes.length < g.numShapes then
    ⟨GenOutcome.err GenError.notEnoughAttrs, g, none⟩
  else if env.prtInitialized = false then
    ⟨GenOutcome.err GenError.prtNotInitialized, g, none⟩
  else if rulePackagePath ≠ "" then
    match env.resolveOutcome rulePackagePath with
    | ResolveOutcome.throws =>
      -- exception inside createResolveMap: mResolveMap is not reset and the
      -- status stays STATUS_UNSPECIFIED_ERROR, so the check below fails
      ⟨GenOutcome.err GenError.resolveMapFailed, g, none⟩
    | ResolveOutcome.returns rm statusOk =>
      let g1 := { g with resolveMap := rm }
      if rm.isSome ∧ statusOk = true then
        generateAfterResolve env g1 shapeAttributes geometryEncoderName geometryEncoderOptions
      else
        ⟨GenOutcome.err GenError.resolveMapFailed, g1, none⟩
  else
    generateAfterResolve env g shapeAttributes geometryEncoderName geometryEncoderOptions

/-- Models `ModelGenerator::generateAnotherModel`: fail when no resolve map is
stored, otherwise delegate with empty rule-package path, empty encoder name
and empty encoder options. -/
def generateAnotherModel (env : EngineEnv) (g : ModelGenerator)
    (shapeAttributes : List PyDict) : GenResult :=
  if g.resolveMap = none then
    ⟨GenOutcome.err GenError.missingResolveMap, g, none⟩
  else
    generateModel env g shapeAttributes "" "" []

/-- The `ModelGenerator` fields that no `generateModel` call ever assigns:
validity flag, builder count, and the four member attribute defaults. -/
def SameCore (a b : ModelGenerator) : Prop :=
  a.valid = b.valid ∧ a.numShapes = b.numShapes ∧ a.ruleFile = b.ruleFile ∧
  a.startRule = b.startRule ∧ a.seed = b.seed ∧ a.shapeName = b.shapeName

/-! Concrete fixtures used by witnesses and counterexamples. -/

/-- A constructor environment in which every shape is accepted. -/
def cenvOk : ConstructEnv :=
  ⟨fun s => s, fun _ => true, fun _ _ _ => true⟩

/-- A constructor environment in which the Engine rejects every inline
geometry buffer (`setGeometry` returns a non-OK status). -/
def cenvReject : ConstructEnv :=
  ⟨fun s => s, fun _ => true, fun _ _ _ => false⟩

/-- The quad of the spec round-trip example. -/
def shapeQuad : InitialShape :=
  InitialShape.fromVertices [0, 0, 0, 0, 0, 100, 100, 0, 100, 100, 0, 0]

/-- A freshly constructed, valid, single-shape orchestrator. -/
def gOne : ModelGenerator := mkModelGenerator cenvOk [shapeQuad]

/-- A freshly constructed, valid, three-shape orchestrator. -/
def gThree : ModelGenerator := mkModelGenerator cenvOk [shapeQuad, shapeQuad, shapeQuad]

/-- A fresh orchestrator whose single inline shape was rejected by the
Engine at construction (the sticky invalid flag is set). -/
def gInvalid : ModelGenerator := mkModelGenerator cenvReject [shapeQuad]

/-- State `gOne` after a previous call stored resolve map `7`. -/
def gWithMap : ModelGenerator := { gOne with resolveMap := some 7 }

/-- An empty collector entry (no geometry, no report, for every index). -/
def entryEmpty : CollectedEntry := ⟨[], [], [], []⟩

/-- Engine oracle: PRT initialized, resolution succeeds with map `0`,
generation succeeds, nothing collected, every path is a directory. -/
def envReady : EngineEnv :=
  ⟨true, fun _ => ResolveOutcome.returns (some 0) true, PrtStatus.ok, fun _ => entryEmpty, fun _ => true⟩

/-- Engine oracle with PRT not initialized. -/
def envOffline : EngineEnv :=
  ⟨false, fun _ => ResolveOutcome.returns (some 0) true, PrtStatus.ok, fun _ => entryEmpty, fun _ => true⟩

/-- Engine oracle whose resolve-map resolution returns a null map with a
failure status (no exception thrown). -/
def envResolveFails : EngineEnv :=
  ⟨true, fun _ => ResolveOutcome.returns none false, PrtStatus.ok, fun _ => entryEmpty, fun _ => true⟩

/-- Engine oracle whose resolve-map resolution throws a native exception. -/
def envResolveThrows : EngineEnv :=
  ⟨true, fun _ => ResolveOutcome.throws, PrtStatus.ok, fun _ => entryEmpty, fun _ => true⟩

/-- Engine oracle for which no path is an existing directory. -/
def envNoDir : EngineEnv :=
  ⟨true, fun _ => ResolveOutcome.returns (some 0) true, PrtStatus.ok, fun _ => entryEmpty, fun _ => false⟩

/-- The construction-time defaults as a `MainAttrs` record. -/
def defaultMainAttrs : MainAttrs := ⟨"bin/rule.cgb", "default$init", 666, "InitialShape"⟩

/-- A shape-attribute dictionary supplying all four recognized keys. -/
def attrsSupplied : PyDict :=
  [("ruleFile", PyValue.str "myRule.cgb"), ("startRule", PyValue.str "Default$Init"),
   ("seed", PyValue.int 42), ("shapeName", PyValue.str "Tower")]

/-- First call on the fresh single-shape orchestrator, supplying all four
recognized keys. -/
def callOne : GenResult := generateModel envReady gOne [attrsSupplied] "" ENCODER_ID_PYTHON []

/-- Second call on the state left by `callOne`, omitting every key and the
encoder name. -/
def callTwo : GenResult := generateModel envReady callOne.state [[]] "" "" []

/-- A freshly constructed, valid, two-shape orchestrator. -/
def gTwo : ModelGenerator := mkModelGenerator cenvOk [shapeQuad, shapeQuad]

/-- The main attributes extracted from `attrsSupplied`. -/
def mainAttrsSupplied : MainAttrs := ⟨"myRule.cgb", "Default$Init", 42, "Tower"⟩

/-- The model list a single-shape Python-encoder call returns when the
collector stays empty. -/
def modelsOne : List GeneratedModel := [⟨0, [], [], [], []⟩]

/-- The Engine invocation of that single-shape Python-encoder call. -/
def invPyOne : EngineInvocation :=
  ⟨[defaultMainAttrs], none, [ENCODER_ID_PYTHON], CallbackSink.python 1⟩

/-- The Engine invocation of a two-shape call with one attribute dictionary. -/
def invTwoAttrs : EngineInvocation :=
  ⟨[mainAttrsSupplied, mainAttrsSupplied], none, [ENCODER_ID_PYTHON], CallbackSink.python 2⟩

/-- A non-Python (file-based) encoder identifier. -/
def fileEncoderName : String := "com.esri.prt.codecs.OBJEncoder"

/-- Encoder options carrying a string `outputPath` entry. -/
def fileOpts : PyDict := [("outputPath", PyValue.str "/tmp/out")]

/-! Helper lemmas. -/

theorem iotaFrom_eq_range' (n s : Nat) : iotaFrom n s = List.range' s n := by
  induction n generalizing s with
  | zero => rfl
  | succ m ih =>
    show s :: iotaFrom m (s + 1) = List.range' s (m + 1)
    rw [ih, List.range'_succ s m 1]

theorem sameCore_refl (g : ModelGenerator) : SameCore g g :=
  ⟨rfl, rfl, rfl, rfl, rfl, rfl⟩

theorem sameCore_trans {a b c : ModelGenerator} (h1 : SameCore a b) (h2 : SameCore b c) :
    SameCore a c :=
  ⟨h1.1.trans h2.1, h1.2.1.trans h2.2.1, h1.2.2.1.trans h2.2.2.1,
   h1.2.2.2.1.trans h2.2.2.2.1, h1.2.2.2.2.1.trans h2.2.2.2.2.1,
   h1.2.2.2.2.2.trans h2.2.2.2.2.2⟩

theorem sameCore_encoderStateAfter (g : ModelGenerator) (enc : String) (opts : PyDict) :
    SameCore (encoderStateAfter g enc opts) g := by
  unfold encoderStateAfter initializeEncoderData
  split
  · split <;> exact ⟨rfl, rfl, rfl, rfl, rfl, rfl⟩
  · exact ⟨rfl, rfl, rfl, rfl, rfl, rfl⟩

theorem generateAfterResolve_state (env : EngineEnv) (g : ModelGenerator) (attrs : List PyDict)
    (enc : String) (opts : PyDict) :
    (generateAfterResolve env g attrs enc opts).state = encoderStateAfter g enc opts := by
  unfold generateAfterResolve
  repeat first | rfl | split

theorem sameCore_generateModel (env : EngineEnv) (g : ModelGenerator) (attrs : List PyDict)
    (rpk enc : String) (opts : PyDict) :
    SameCore (generateModel env g attrs rpk enc opts).state g := by
  unfold generateModel
  split
  · exact sameCore_refl g
  · split
    · exact sameCore_refl g
    · split
      · exact sameCore_refl g
      · split
        · split
          · exact sameCore_refl g
          · split
            · rw [generateAfterResolve_state]
              exact sameCore_trans (sameCore_encoderStateAfter _ enc opts)
                ⟨rfl, rfl, rfl, rfl, rfl, rfl⟩
            · exact ⟨rfl, rfl, rfl, rfl, rfl, rfl⟩
        · rw [generateAfterResolve_state]
          exact sameCore_encoderStateAfter g enc opts

theorem setAndCreate_take_eq (g : ModelGenerator) (attrs : List PyDict) (n : Nat)
    (hn : g.numShapes = n) (hle : n ≤ attrs.length) :
    setAndCreateInitialShape g (attrs.take n) = setAndCreateInitialShape g attrs := by
  unfold setAndCreateInitialShape
  apply List.map_congr_left
  intro ind hind
  have hi : ind < n := by
    rw [← hn]
    exact List.mem_range.mp hind
  have h2 : ind < attrs.length := lt_of_lt_of_le hi hle
  have h1 : ind < (attrs.take n).length := by
    rw [List.length_take]
    omega
  unfold shapeAttrFor
  rw [if_pos h1, if_pos h2, List.getD_eq_getElem?_getD, List.getD_eq_getElem?_getD,
    List.getElem?_take, if_pos hi]

theorem setAndCreate_single (g : ModelGenerator) (attrs : List PyDict)
    (h : attrs.length = 1) :
    setAndCreateInitialShape g attrs
      = List.replicate g.numShapes
          (extractMainShapeAttributes (attrs.headD []) g.ruleFile g.startRule g.seed
            g.shapeName) := by
  match attrs, h with
  | [d], _ =>
    unfold setAndCreateInitialShape
    have hsf : ∀ ind ∈ List.range g.numShapes,
        extractMainShapeAttributes (shapeAttrFor [d] ind) g.ruleFile g.startRule g.seed g.shapeName
          = extractMainShapeAttributes d g.ruleFile g.startRule g.seed g.shapeName := by
      intro ind _
      have hd : shapeAttrFor [d] ind = d := by
        unfold shapeAttrFor
        by_cases hi : ind < 1
        · rw [if_pos (by simpa using hi)]
          rw [Nat.lt_one_iff.mp hi]
          rfl
        · rw [if_neg (by simpa using hi)]
          rfl
      rw [hd]
    rw [List.map_congr_left hsf, List.map_const', List.length_range]
    rfl

theorem generateAfterResolve_congr (env : EngineEnv) (g : ModelGenerator)
    (attrs attrs2 : List PyDict) (enc : String) (opts : PyDict)
    (h : setAndCreateInitialShape g attrs = setAndCreateInitialShape g attrs2) :
    generateAfterResolve env g attrs enc opts = generateAfterResolve env g attrs2 enc opts := by
  unfold generateAfterResolve
  rw [h]

theorem getRaw_cons_nonPython (g : ModelGenerator) (e0 e1 e2 : String) (rest : List String)
    (o0 o1 o2 : ValidatedOpts) (orest : List ValidatedOpts)
    (hn : g.encodersNames = e0 :: e1 :: e2 :: rest)
    (ho : g.encodersOptions = o0 :: o1 :: o2 :: orest)
    (he : e0 ≠ ENCODER_ID_PYTHON) :
    getRawEncoderDataPointers g = some ([e0, e1, e2], [o0, o1, o2]) := by
  simp [getRawEncoderDataPointers, hn, ho, he]

theorem getRaw_python (g : ModelGenerator) (rest : List String) (o0 : ValidatedOpts)
    (orest : List ValidatedOpts)
    (hn : g.encodersNames = ENCODER_ID_PYTHON :: rest)
    (ho : g.encodersOptions = o0 :: orest) :
    getRawEncoderDataPointers g = some ([ENCODER_ID_PYTHON], [o0]) := by
  simp [getRawEncoderDataPointers, hn, ho]

theorem afterResolve_inv_shapeAttrs (env : EngineEnv) (g : ModelGenerator)
    (attrs : List PyDict) (enc : String) (opts : PyDict) (inv : EngineInvocation)
    (h : (generateAfterResolve env g attrs enc opts).invocation = some inv) :
    inv.shapeAttrs = setAndCreateInitialShape g attrs := by
  unfold generateAfterResolve at h
  split at h
  · simp at h
  · split at h
    · split at h
      · simp at h
        rw [← h]
      · simp at h
        rw [← h]
    · split at h
      · simp at h
      · split at h
        · split at h
          · simp at h
            rw [← h]
          · simp at h
            rw [← h]
        · simp at h

theorem generateModel_inv_shapeAttrs (env : EngineEnv) (g : ModelGenerator)
    (attrs : List PyDict) (rpk enc : String) (opts : PyDict) (inv : EngineInvocation)
    (h : (generateModel env g attrs rpk enc opts).invocation = some inv) :
    inv.shapeAttrs = setAndCreateInitialShape g attrs := by
  unfold generateModel at h
  split at h
  · simp at h
  · split at h
    · simp at h
    · split at h
      · simp at h
      · split at h
        · split at h
          · simp at h
          · split at h
            · simp only [] at h
              have h4 := afterResolve_inv_shapeAttrs env _ attrs enc opts inv h
              rw [h4]
              rfl
            · simp at h
        · exact afterResolve_inv_shapeAttrs env g attrs enc opts inv h

theorem drainCollector_length (env : EngineEnv) (n : Nat) :
    (drainCollector env n).length = n := by
  unfold drainCollector
  rw [List.length_map, List.length_range]

theorem drainCollector_getD (env : EngineEnv) (n k : Nat) (d : GeneratedModel)
    (hk : k < n) :
    ((drainCollector env n).getD k d).initialShapeIndex = k := by
  unfold drainCollector
  rw [List.getD_eq_getElem?_getD, List.getElem?_map, List.getElem?_range hk]
  rfl

theorem afterResolve_python_ok (env : EngineEnv) (g : ModelGenerator) (attrs : List PyDict)
    (enc : String) (opts : PyDict) (models : List GeneratedModel) (inv : EngineInvocation)
    (n : Nat)
    (h1 : (generateAfterResolve env g attrs enc opts).outcome = GenOutcome.ok models)
    (h2 : (generateAfterResolve env g attrs enc opts).invocation = some inv)
    (h3 : inv.sink = CallbackSink.python n) :
    models = drainCollector env g.numShapes := by
  have h12 := And.intro h1 h2
  clear h1 h2
  unfold generateAfterResolve at h12
  split at h12
  · simp at h12
  · split at h12
    · split at h12
      · simp at h12
      · simp at h12
        rw [← h12.1]
    · split at h12
      · simp at h12
      · split at h12
        · split at h12
          · simp at h12
          · obtain ⟨hm, hi⟩ := h12
            simp at hi
            rw [← hi] at h3
            simp at h3
        · simp at h12

theorem generateModel_python_ok_drains (env : EngineEnv) (g : ModelGenerator)
    (attrs : List PyDict) (rpk enc : String) (opts : PyDict)
    (models : List GeneratedModel) (inv : EngineInvocation) (n : Nat)
    (h1 : (generateModel env g attrs rpk enc opts).outcome = GenOutcome.ok models)
    (h2 : (generateModel env g attrs rpk enc opts).invocation = some inv)
    (h3 : inv.sink = CallbackSink.python n) :
    models = drainCollector env g.numShapes := by
  have h12 := And.intro h1 h2
  clear h1 h2
  unfold generateModel at h12
  split at h12
  · simp at h12
  · split at h12
    · simp at h12
    · split at h12
      · simp at h12
      · split at h12
        · split at h12
          · simp at h12
          · split at h12
            · simp only [] at h12
              have h4 := afterResolve_python_ok env _ attrs enc opts models inv n h12.1 h12.2 h3
              rw [h4]
            · simp at h12
        · exact afterResolve_python_ok env g attrs enc opts models inv n h12.1 h12.2 h3

theorem afterResolve_fileEncoder (env : EngineEnv) (g : ModelGenerator) (attrs : List PyDict)
    (enc : String) (opts : PyDict) (he1 : enc ≠ "") (he2 : enc ≠ ENCODER_ID_PYTHON) :
    (PyDict.getStr opts "outputPath" = none →
      (generateAfterResolve env g attrs enc opts).outcome
        = GenOutcome.err GenError.caughtException ∧
      (generateAfterResolve env g attrs enc opts).invocation = none) ∧
    (∀ p, PyDict.getStr opts "outputPath" = some p → env.isExistingDirectory p = false →
      (generateAfterResolve env g attrs enc opts).outcome
        = GenOutcome.err GenError.badOutputPath ∧
      (generateAfterResolve env g attrs enc opts).invocation = none) ∧
    (∀ p, PyDict.getStr opts "outputPath" = some p → env.isExistingDirectory p = true →
      (∃ inv, (generateAfterResolve env g attrs enc opts).invocation = some inv ∧
        inv.sink = CallbackSink.fileOutput p) ∧
      ((generateAfterResolve env g attrs enc opts).outcome = GenOutcome.ok [] ∨
       (generateAfterResolve env g attrs enc opts).outcome
         = GenOutcome.err GenError.generateFailed)) := by
  have hE : encoderStateAfter g enc opts
      = { g with encodersNames := [enc, ENCODER_ID_CGA_REPORT, ENCODER_ID_CGA_PRINT],
                 encodersOptions := [⟨enc, opts⟩, ⟨ENCODER_ID_CGA_REPORT, cgaReportOptions⟩,
                                     ⟨ENCODER_ID_CGA_PRINT, []⟩] } := by
    unfold encoderStateAfter initializeEncoderData
    rw [if_pos he1, if_neg he2]
  have hRaw : getRawEncoderDataPointers (encoderStateAfter g enc opts)
      = some ([enc, ENCODER_ID_CGA_REPORT, ENCODER_ID_CGA_PRINT],
              [⟨enc, opts⟩, ⟨ENCODER_ID_CGA_REPORT, cgaReportOptions⟩,
               ⟨ENCODER_ID_CGA_PRINT, []⟩]) :=
    getRaw_cons_nonPython _ enc ENCODER_ID_CGA_REPORT ENCODER_ID_CGA_PRINT [] _ _ _ []
      (by rw [hE]) (by rw [hE]) he2
  have hNames : (encoderStateAfter g enc opts).encodersNames
      = [enc, ENCODER_ID_CGA_REPORT, ENCODER_ID_CGA_PRINT] := by
    rw [hE]
  refine ⟨?_, ?_, ?_⟩
  · intro h
    constructor <;> simp [generateAfterResolve, hRaw, hNames, he2, h]
  · intro p hp hdir
    constructor <;> simp [generateAfterResolve, hRaw, hNames, he2, hp, hdir]
  · intro p hp hdir
    constructor
    · refine ⟨⟨setAndCreateInitialShape g attrs, (encoderStateAfter g enc opts).resolveMap,
        [enc, ENCODER_ID_CGA_REPORT, ENCODER_ID_CGA_PRINT], CallbackSink.fileOutput p⟩, ?_, rfl⟩
      cases hst : env.genStatus <;>
        simp [generateAfterResolve, hRaw, hNames, he2, hp, hdir, hst]
    · cases hst : env.genStatus
      · exact Or.inl (by simp [generateAfterResolve, hRaw, hNames, he2, hp, hdir, hst])
      · exact Or.inr (by simp [generateAfterResolve, hRaw, hNames, he2, hp, hdir, hst])

/-! Claim theorems. -/

/-- Claim C1: a generate call whose Engine invocation uses the in-memory
Python encoder sink and whose outcome is a successful model vector returns
exactly one `GeneratedModel` per initial shape, in ascending
initial-shape-index order, the k-th model carrying index k. -/
theorem generateModel_python_models (env : EngineEnv) (g : ModelGenerator)
    (attrs : List PyDict) (rpk enc : String) (opts : PyDict)
    (models : List GeneratedModel) (inv : EngineInvocation) (n : Nat)
    (h1 : (generateModel env g attrs rpk enc opts).outcome = GenOutcome.ok models)
    (h2 : (generateModel env g attrs rpk enc opts).invocation = some inv)
    (h3 : inv.sink = CallbackSink.python n) :
    models.length = g.numShapes ∧
    ∀ k, k < models.length → (models.getD k ⟨0, [], [], [], []⟩).initialShapeIndex = k := by
  have hm := generateModel_python_ok_drains env g attrs rpk enc opts models inv n h1 h2 h3
  constructor
  · rw [hm, drainCollector_length]
  · intro k hk
    rw [hm] at hk ⊢
    rw [drainCollector_length] at hk
    exact drainCollector_getD env g.numShapes k _ hk

/-- Witness for C1: the single-shape, single-attribute-set call returns
exactly one model whose index is 0. -/
theorem generateModel_python_models_witness :
    modelsOne.length = gOne.numShapes ∧
    (modelsOne.getD 0 ⟨0, [], [], [], []⟩).initialShapeIndex = 0 := by
  have h := generateModel_python_models envReady gOne [[]] "" ENCODER_ID_PYTHON [] modelsOne
    invPyOne 1 (by decide) (by decide) rfl
  exact ⟨h.1, h.2 0 (by decide)⟩

/-- Claim C2: with M attribute dictionaries and N initial shapes, M not 1
and M less than N is the not-enough-attributes error (empty result, no
Engine invocation, untouched state); M greater than N behaves exactly as if
the surplus dictionaries were dropped; M equal to 1 applies the single
dictionary to all N shapes in the Engine invocation. -/
theorem attrCount_checks (env : EngineEnv) (g : ModelGenerator) (attrs : List PyDict)
    (rpk enc : String) (opts : PyDict) :
    (g.valid = true → attrs.length ≠ 1 → attrs.length < g.numShapes →
      generateModel env g attrs rpk enc opts
        = ⟨GenOutcome.err GenError.notEnoughAttrs, g, none⟩) ∧
    (attrs.length > g.numShapes →
      generateModel env g attrs rpk enc opts
        = generateModel env g (attrs.take g.numShapes) rpk enc opts) ∧
    (attrs.length = 1 → 1 < g.numShapes →
      ∀ inv, (generateModel env g attrs rpk enc opts).invocation = some inv →
        inv.shapeAttrs = List.replicate g.numShapes
          (extractMainShapeAttributes (attrs.headD []) g.ruleFile g.startRule g.seed
            g.shapeName)) := by
  refine ⟨?_, ?_, ?_⟩
  · intro hv h1 h2
    unfold generateModel
    rw [if_neg (by simp [hv]), if_pos ⟨h1, h2⟩]
  · intro hgt
    by_cases hv : g.valid = false
    · unfold generateModel
      rw [if_pos hv, if_pos hv]
    · have hA : ¬(attrs.length ≠ 1 ∧ attrs.length < g.numShapes) := by
        intro hc
        obtain ⟨hc1, hc2⟩ := hc
        omega
      have hlen : (attrs.take g.numShapes).length = g.numShapes := by
        rw [List.length_take]
        omega
      have hA2 : ¬((attrs.take g.numShapes).length ≠ 1 ∧
          (attrs.take g.numShapes).length < g.numShapes) := by
        rw [hlen]
        intro hc
        exact absurd hc.2 (lt_irrefl _)
      unfold generateModel
      rw [if_neg hv, if_neg hv, if_neg hA, if_neg hA2]
      by_cases hp : env.prtInitialized = false
      · rw [if_pos hp, if_pos hp]
      · rw [if_neg hp, if_neg hp]
        by_cases hrpk : rpk ≠ ""
        · rw [if_pos hrpk, if_pos hrpk]
          cases hro : env.resolveOutcome rpk with
          | throws => simp only [hro]
          | returns rm stOk =>
            simp only [hro]
            by_cases hok : rm.isSome = true ∧ stOk = true
            · rw [if_pos hok, if_pos hok]
              exact generateAfterResolve_congr env _ attrs (attrs.take g.numShapes) enc opts
                (setAndCreate_take_eq _ attrs g.numShapes rfl (le_of_lt hgt)).symm
            · rw [if_neg hok, if_neg hok]
        · rw [if_neg hrpk, if_neg hrpk]
          exact generateAfterResolve_congr env g attrs (attrs.take g.numShapes) enc opts
            (setAndCreate_take_eq g attrs g.numShapes rfl (le_of_lt hgt)).symm
  · intro h1 hN inv hinv
    have hs := generateModel_inv_shapeAttrs env g attrs rpk enc opts inv hinv
    rw [hs]
    exact setAndCreate_single g attrs h1

/-- Witness for C2 at concrete inputs: two dictionaries for three shapes
error out; three dictionaries for one shape equal the truncated call; one
dictionary for two shapes is applied to both. -/
theorem attrCount_checks_witness :
    generateModel envReady gThree [[], []] "" ENCODER_ID_PYTHON []
      = ⟨GenOutcome.err GenError.notEnoughAttrs, gThree, none⟩ ∧
    generateModel envReady gOne [[], [], []] "" ENCODER_ID_PYTHON []
      = generateModel envReady gOne (List.take gOne.numShapes [[], [], []]) ""
          ENCODER_ID_PYTHON [] ∧
    invTwoAttrs.shapeAttrs = List.replicate gTwo.numShapes
      (extractMainShapeAttributes (List.headD [attrsSupplied] []) gTwo.ruleFile gTwo.startRule
        gTwo.seed gTwo.shapeName) := by
  refine ⟨?_, ?_, ?_⟩
  · exact (attrCount_checks envReady gThree [[], []] "" ENCODER_ID_PYTHON []).1
      (by decide) (by decide) (by decide)
  · exact (attrCount_checks envReady gOne [[], [], []] "" ENCODER_ID_PYTHON []).2.1 (by decide)
  · exact (attrCount_checks envReady gTwo [attrsSupplied] "" ENCODER_ID_PYTHON []).2.2
      (by decide) (by decide) invTwoAttrs (by decide)

/-- Claim C8: on a call that selects a non-Python (file-based) encoder by
name and passes the earlier checks, a missing `outputPath` entry ends in the
caught-exception error and a non-directory path in the output-path error
(both: empty result, no Engine invocation); an existing directory leads to an
Engine invocation with a file-output sink on that directory, and the call
returns an empty model vector whatever the generation status. -/
theorem generateModel_fileEncoder (env : EngineEnv) (g : ModelGenerator)
    (attrs : List PyDict) (rpk enc : String) (opts : PyDict)
    (hv : g.valid = true) (ha : ¬(attrs.length ≠ 1 ∧ attrs.length < g.numShapes))
    (hp : env.prtInitialized = true)
    (hres : rpk = "" ∨ ∃ rm, env.resolveOutcome rpk = ResolveOutcome.returns (some rm) true)
    (he1 : enc ≠ "") (he2 : enc ≠ ENCODER_ID_PYTHON) :
    (PyDict.getStr opts "outputPath" = none →
      (generateModel env g attrs rpk enc opts).outcome
        = GenOutcome.err GenError.caughtException ∧
      (generateModel env g attrs rpk enc opts).invocation = none) ∧
    (∀ p, PyDict.getStr opts "outputPath" = some p → env.isExistingDirectory p = false →
      (generateModel env g attrs rpk enc opts).outcome
        = GenOutcome.err GenError.badOutputPath ∧
      (generateModel env g attrs rpk enc opts).invocation = none) ∧
    (∀ p, PyDict.getStr opts "outputPath" = some p → env.isExistingDirectory p = true →
      (∃ inv, (generateModel env g attrs rpk enc opts).invocation = some inv ∧
        inv.sink = CallbackSink.fileOutput p) ∧
      ((generateModel env g attrs rpk enc opts).outcome = GenOutcome.ok [] ∨
       (generateModel env g attrs rpk enc opts).outcome
         = GenOutcome.err GenError.generateFailed)) := by
  by_cases hrpk : rpk = ""
  · have hgen : generateModel env g attrs rpk enc opts
        = generateAfterResolve env g attrs enc opts := by
      subst hrpk
      unfold generateModel
      rw [if_neg (by simp [hv]), if_neg ha, if_neg (by simp [hp]), if_neg (by simp)]
    rw [hgen]
    exact afterResolve_fileEncoder env g attrs enc opts he1 he2
  · obtain ⟨rm, hro⟩ := hres.resolve_left hrpk
    have hgen : generateModel env g attrs rpk enc opts
        = generateAfterResolve env { g with resolveMap := some rm } attrs enc opts := by
      unfold generateModel
      rw [if_neg (by simp [hv]), if_neg ha, if_neg (by simp [hp]), if_pos hrpk]
      simp only [hro]
      rw [if_pos (by simp)]
    rw [hgen]
    exact afterResolve_fileEncoder env _ attrs enc opts he1 he2

/-- Witness for C8 at concrete inputs: missing output path, non-directory
output path, and existing-directory output path. -/
theorem generateModel_fileEncoder_witness :
    ((generateModel envReady gOne [[]] "" fileEncoderName []).outcome
        = GenOutcome.err GenError.caughtException ∧
      (generateModel envReady gOne [[]] "" fileEncoderName []).invocation = none) ∧
    ((generateModel envNoDir gOne [[]] "" fileEncoderName fileOpts).outcome
        = GenOutcome.err GenError.badOutputPath ∧
      (generateModel envNoDir gOne [[]] "" fileEncoderName fileOpts).invocation = none) ∧
    ((generateModel envReady gOne [[]] "" fileEncoderName fileOpts).outcome = GenOutcome.ok []
      ∨ (generateModel envReady gOne [[]] "" fileEncoderName fileOpts).outcome
          = GenOutcome.err GenError.generateFailed) ∧
    ((generateModel envReady gOne [[]] "" fileEncoderName fileOpts).invocation).isSome
      = true := by
  refine ⟨?_, ?_, ?_, ?_⟩
  · exact (generateModel_fileEncoder envReady gOne [[]] "" fileEncoderName [] (by decide)
      (by decide) (by decide) (Or.inl rfl) (by decide) (by decide)).1 (by decide)
  · exact (generateModel_fileEncoder envNoDir gOne [[]] "" fileEncoderName fileOpts (by decide)
      (by decide) (by decide) (Or.inl rfl) (by decide) (by decide)).2.1 "/tmp/out"
      (by decide) (by decide)
  · exact ((generateModel_fileEncoder envReady gOne [[]] "" fileEncoderName fileOpts (by decide)
      (by decide) (by decide) (Or.inl rfl) (by decide) (by decide)).2.2 "/tmp/out"
      (by decide) (by decide)).2
  · obtain ⟨⟨inv, hi, _⟩, _⟩ := (generateModel_fileEncoder envReady gOne [[]] ""
      fileEncoderName fileOpts (by decide) (by decide) (by decide) (Or.inl rfl) (by decide)
      (by decide)).2.2 "/tmp/out" (by decide) (by decide)
    rw [hi]
    rfl

/-- Claim C9: the vertex-only `InitialShape` constructor produces the index
sequence `0, 1, ..., |v|/3 - 1` (one index per vertex triple, in order) and
the single-element face-count sequence `[|v|/3]`. -/
theorem initialShape_defaultPolygon (v : List Int) :
    (InitialShape.fromVertices v).indices = List.range (v.length / 3) ∧
    (InitialShape.fromVertices v).faceCounts = [v.length / 3] := by
  have h : iotaFrom (v.length / 3) 0 = List.range (v.length / 3) := by
    rw [iotaFrom_eq_range', List.range_eq_range']
  constructor
  · show iotaFrom (v.length / 3) 0 = List.range (v.length / 3)
    exact h
  · show [(iotaFrom (v.length / 3) 0).length] = [v.length / 3]
    rw [h, List.length_range]

/-- Claim C7: `generateAnotherModel` fails with the missing-resolve-map error
(empty result, untouched state, no Engine invocation) when no resolve map is
stored, and otherwise returns exactly what
`generateModel(shapeAttributes, "", "", \x7b\x7d)` returns. -/
theorem generateAnotherModel_spec (env : EngineEnv) (g : ModelGenerator) (attrs : List PyDict) :
    (g.resolveMap = none →
      generateAnotherModel env g attrs = ⟨GenOutcome.err GenError.missingResolveMap, g, none⟩) ∧
    (g.resolveMap ≠ none →
      generateAnotherModel env g attrs = generateModel env g attrs "" "" []) := by
  unfold generateAnotherModel
  constructor
  · intro h
    rw [if_pos h]
  · intro h
    rw [if_neg h]

/-- Witness for C7 at concrete inputs: a fresh orchestrator has no resolve
map and fails, one with a stored map delegates. -/
theorem generateAnotherModel_spec_witness :
    generateAnotherModel envReady gOne [[]]
      = ⟨GenOutcome.err GenError.missingResolveMap, gOne, none⟩ ∧
    generateAnotherModel envReady gWithMap [[]] = generateModel envReady gWithMap [[]] "" "" [] :=
  ⟨(generateAnotherModel_spec envReady gOne [[]]).1 (by decide),
   (generateAnotherModel_spec envReady gWithMap [[]]).2 (by decide)⟩

/-- Claim C3: an orchestrator marked invalid at construction (a shape with an
empty/unresolvable file path or Engine-rejected inline buffers) makes every
`generateModel` call return the invalid-instance error with an empty result,
an unchanged state and no Engine invocation; the flag is sticky because no
call ever assigns it. -/
theorem constructedInvalid_failsFast (cenv : ConstructEnv) (shapes : List InitialShape)
    (env : EngineEnv) (g : ModelGenerator) (attrs : List PyDict) (rpk enc : String)
    (opts : PyDict) :
    (g.valid = false →
      generateModel env g attrs rpk enc opts = ⟨GenOutcome.err GenError.invalidInstance, g, none⟩) ∧
    (generateModel env g attrs rpk enc opts).state.valid = g.valid ∧
    ((mkModelGenerator cenv shapes).valid = false ↔
      ∃ s ∈ shapes, initialShapeFails cenv s = true) := by
  refine ⟨?_, (sameCore_generateModel env g attrs rpk enc opts).1, ?_⟩
  · intro h
    unfold generateModel
    rw [if_pos h]
  · simp [mkModelGenerator, List.any_eq_true]

/-- Witness for C3: the orchestrator whose single inline shape the Engine
rejected fails fast on a generate call that would otherwise succeed. -/
theorem constructedInvalid_failsFast_witness :
    generateModel envReady gInvalid [[]] "" ENCODER_ID_PYTHON []
      = ⟨GenOutcome.err GenError.invalidInstance, gInvalid, none⟩ :=
  (constructedInvalid_failsFast cenvReject [shapeQuad] envReady gInvalid [[]] ""
    ENCODER_ID_PYTHON []).1 (by decide)

/-- Claim C10: with PRT uninitialized the call reports the dedicated error
and returns empty with untouched state and no Engine invocation; the
instance-validity and attribute-count checks run first and take precedence
whatever `env.prtInitialized` is. -/
theorem prtNotInitialized_precedence (env : EngineEnv) (g : ModelGenerator)
    (attrs : List PyDict) (rpk enc : String) (opts : PyDict) :
    (g.valid = false →
      (generateModel env g attrs rpk enc opts).outcome
        = GenOutcome.err GenError.invalidInstance) ∧
    (g.valid = true → attrs.length ≠ 1 → attrs.length < g.numShapes →
      (generateModel env g attrs rpk enc opts).outcome
        = GenOutcome.err GenError.notEnoughAttrs) ∧
    (g.valid = true → ¬(attrs.length ≠ 1 ∧ attrs.length < g.numShapes) →
      env.prtInitialized = false →
      generateModel env g attrs rpk enc opts
        = ⟨GenOutcome.err GenError.prtNotInitialized, g, none⟩) := by
  refine ⟨?_, ?_, ?_⟩
  · intro h
    unfold generateModel
    rw [if_pos h]
  · intro hv h1 h2
    unfold generateModel
    rw [if_neg (by simp [hv]), if_pos ⟨h1, h2⟩]
  · intro hv ha hp
    unfold generateModel
    rw [if_neg (by simp [hv]), if_neg ha, if_pos hp]

/-- Witness for C10 at concrete inputs: all three precedence layers observed
with PRT uninitialized. -/
theorem prtNotInitialized_precedence_witness :
    (generateModel envOffline gInvalid [[]] "" ENCODER_ID_PYTHON []).outcome
      = GenOutcome.err GenError.invalidInstance ∧
    (generateModel envOffline gThree [[], []] "" ENCODER_ID_PYTHON []).outcome
      = GenOutcome.err GenError.notEnoughAttrs ∧
    generateModel envOffline gOne [[]] "" ENCODER_ID_PYTHON []
      = ⟨GenOutcome.err GenError.prtNotInitialized, gOne, none⟩ :=
  ⟨(prtNotInitialized_precedence envOffline gInvalid [[]] "" ENCODER_ID_PYTHON []).1 (by decide),
   (prtNotInitialized_precedence envOffline gThree [[], []] "" ENCODER_ID_PYTHON []).2.1
     (by decide) (by decide) (by decide),
   (prtNotInitialized_precedence envOffline gOne [[]] "" ENCODER_ID_PYTHON []).2.2
     (by decide) (by decide) (by decide)⟩

/-- Counterexample to claim C5: `callOne` supplies rule file, start rule,
seed 42 and shape name "Tower" (and the Engine receives them), yet the
orchestrator state still holds the construction-time defaults afterwards, so
`callTwo` — which omits every key — passes seed 666 and name "InitialShape"
to the Engine, not the last-supplied values. -/
theorem defaults_not_mutated_counterexample :
    callOne.invocation
      = some ⟨[⟨"myRule.cgb", "Default$Init", 42, "Tower"⟩], none,
              [ENCODER_ID_PYTHON], CallbackSink.python 1⟩ ∧
    callOne.state.seed = 666 ∧
    callOne.state.shapeName = "InitialShape" ∧
    callTwo.invocation
      = some ⟨[defaultMainAttrs], none, [ENCODER_ID_PYTHON], CallbackSink.python 1⟩ ∧
    defaultMainAttrs.seed = 666 ∧
    defaultMainAttrs.shapeName = "InitialShape" ∧
    (666 : Int) ≠ 42 ∧
    "InitialShape" ≠ "Tower" := by
  refine ⟨by decide, by decide, by decide, by decide, by decide, by decide, by decide, by decide⟩

/-- Amended C5: `generateModel` never assigns the four member attribute
defaults — a later call omitting a key always falls back to the
construction-time defaults (rule file "bin/rule.cgb", start rule
"default$init", seed 666, shape name "InitialShape"), not to values supplied
by an earlier call. -/
theorem generateModel_defaults_frame (env : EngineEnv) (g : ModelGenerator)
    (attrs : List PyDict) (rpk enc : String) (opts : PyDict) :
    (generateModel env g attrs rpk enc opts).state.ruleFile = g.ruleFile ∧
    (generateModel env g attrs rpk enc opts).state.startRule = g.startRule ∧
    (generateModel env g attrs rpk enc opts).state.seed = g.seed ∧
    (generateModel env g attrs rpk enc opts).state.shapeName = g.shapeName ∧
    (mkModelGenerator cenvOk []).seed = 666 ∧
    (mkModelGenerator cenvOk []).shapeName = "InitialShape" := by
  have h := sameCore_generateModel env g attrs rpk enc opts
  exact ⟨h.2.2.1, h.2.2.2.1, h.2.2.2.2.1, h.2.2.2.2.2, rfl, rfl⟩

/-- Counterexample to claim C4: with a stored resolve map `7`, a resolution
attempt that returns a null map with a failure status makes the call return
empty, but the previously successful resolve map has been overwritten by the
`mResolveMap.reset(...)` that runs before the status check. -/
theorem resolveFailure_overwrites_counterexample :
    (generateModel envResolveFails gWithMap [[]] "rules.rpk" ENCODER_ID_PYTHON []).outcome
      = GenOutcome.err GenError.resolveMapFailed ∧
    (generateModel envResolveFails gWithMap [[]] "rules.rpk" ENCODER_ID_PYTHON []).state.resolveMap
      = none ∧
    gWithMap.resolveMap = some 7 := by
  refine ⟨by decide, by decide, by decide⟩

/-- Amended C4: when resolution of a non-empty rule-package path fails, the
call returns empty with no Engine invocation; a thrown native exception
leaves the stored resolve map untouched, while a returned failure (null map
or non-OK status) overwrites the stored map with the returned value, losing
the previous one. -/
theorem generateModel_resolveFailure_amended (env : EngineEnv) (g : ModelGenerator)
    (attrs : List PyDict) (rpk enc : String) (opts : PyDict)
    (hv : g.valid = true) (ha : ¬(attrs.length ≠ 1 ∧ attrs.length < g.numShapes))
    (hp : env.prtInitialized = true) (hr : rpk ≠ "") :
    (env.resolveOutcome rpk = ResolveOutcome.throws →
      generateModel env g attrs rpk enc opts
        = ⟨GenOutcome.err GenError.resolveMapFailed, g, none⟩) ∧
    (∀ rm statusOk, env.resolveOutcome rpk = ResolveOutcome.returns rm statusOk →
      rm = none ∨ statusOk = false →
      generateModel env g attrs rpk enc opts
        = ⟨GenOutcome.err GenError.resolveMapFailed, { g with resolveMap := rm }, none⟩) := by
  constructor
  · intro h
    unfold generateModel
    rw [if_neg (by simp [hv]), if_neg ha, if_neg (by simp [hp]), if_pos hr, h]
  · intro rm statusOk h hfail
    unfold generateModel
    rw [if_neg (by simp [hv]), if_neg ha, if_neg (by simp [hp]), if_pos hr, h]
    have hno : ¬(rm.isSome = true ∧ statusOk = true) := by
      rcases hfail with h1 | h1 <;> simp [h1]
    simp [hno]

/-- Witness for the amended C4 at concrete inputs: a thrown resolution keeps
map `7`; a returned null-map failure overwrites it with `none`. -/
theorem generateModel_resolveFailure_amended_witness :
    generateModel envResolveThrows gWithMap [[]] "rules.rpk" ENCODER_ID_PYTHON []
      = ⟨GenOutcome.err GenError.resolveMapFailed, gWithMap, none⟩ ∧
    generateModel envResolveFails gWithMap [[]] "rules.rpk" ENCODER_ID_PYTHON []
      = ⟨GenOutcome.err GenError.resolveMapFailed, { gWithMap with resolveMap := none }, none⟩ :=
  ⟨(generateModel_resolveFailure_amended envResolveThrows gWithMap [[]] "rules.rpk"
      ENCODER_ID_PYTHON [] (by decide) (by decide) (by decide) (by decide)).1 rfl,
   (generateModel_resolveFailure_amended envResolveFails gWithMap [[]] "rules.rpk"
      ENCODER_ID_PYTHON [] (by decide) (by decide) (by decide) (by decide)).2
     none false rfl (Or.inl rfl)⟩

/-- Claim C6 (code evaluated at the failing input): on a fresh valid
orchestrator, a generate call with an empty encoder name reaches
`mEncodersNames[0]` on an empty vector — undefined behaviour, modelled as
`crash` — instead of reporting an error and returning empty; when a previous
call did establish an encoder set, an empty encoder name leaves the stored
encoder names and options unchanged (they are reused as-is). -/
theorem emptyEncoderName_fresh_crashes :
    (generateModel envReady gOne [[]] "" "" []).outcome = GenOutcome.crash ∧
    (∀ env g attrs rpk opts,
      (generateModel env g attrs rpk "" opts).state.encodersNames = g.encodersNames ∧
      (generateModel env g attrs rpk "" opts).state.encodersOptions = g.encodersOptions) := by
  constructor
  · decide
  · intro env g attrs rpk opts
    unfold generateModel
    split
    · exact ⟨rfl, rfl⟩
    · split
      · exact ⟨rfl, rfl⟩
      · split
        · exact ⟨rfl, rfl⟩
        · split
          · split
            · exact ⟨rfl, rfl⟩
            · split
              · rw [generateAfterResolve_state]
                unfold encoderStateAfter
                rw [if_neg (by simp)]
                exact ⟨rfl, rfl⟩
              · exact ⟨rfl, rfl⟩
          · rw [generateAfterResolve_state]
            unfold encoderStateAfter
            rw [if_neg (by simp)]
            exact ⟨rfl, rfl⟩

end PyPrt
